import Mathlib

/-!
Verification of `src/brevitas/core/bit_width/parameter.py`: the learnable
bit-width modules `BitWidthParameter` and `RemoveBitwidthParameter`.

Scalars held in tensors and Python floats are modelled as rationals (`ℚ`),
i.e. exact real-number semantics. Fallible construction (Python `raise`)
is modelled with `Except`. The state-dict used by the checkpoint-loading
hook is modelled as an association list with unique keys (a Python `dict`),
and the missing-keys list as a `List String`.
-/

/-- Constant `MIN_INT_BIT_WIDTH = 2` from the source module. -/
def MIN_INT_BIT_WIDTH : ℤ := 2

/-- Constant `NON_ZERO_EPSILON = 1e-6` from the source module. -/
def NON_ZERO_EPSILON : ℚ := 1 / 1000000

/-- Constant `REMOVE_ZERO_BIT_WIDTH = 0.1` from the source module. -/
def REMOVE_ZERO_BIT_WIDTH : ℚ := 1 / 10

/-- Modelled from the spec: the restriction-policy interface consumed by the
core (`restrict_bit_width_impl`, e.g. `IntRestrictValue(RoundSte())` from
`brevitas.core.restrict_val`, whose code is not among the sources at hand).
It exposes `restrict_init_float` (used only at construction) and a callable
on the running value (called `apply` here, used at every forward pass). -/
structure RestrictPolicy where
  restrict_init_float : ℚ → ℚ
  apply : ℚ → ℚ

/-- Modelled from the spec: `abs_binary_sign_grad` from `brevitas.function`
(not among the sources at hand); its forward pass is the absolute value and
its backward pass substitutes the sign of the input. Only the forward value
is relevant to the claims. -/
def abs_binary_sign_grad (x : ℚ) : ℚ := |x|

/-- The construction-time errors of `BitWidthParameter.__init__`, one
constructor per `raise` site, in source order. The spec calls all of them
`ConfigurationError`. -/
inductive ConfigurationError where
  | intBitWidthBelowFloor (bit_width : ℤ)
  | minIntBitWidthBelowFloor (min_bit_width : ℤ)
  | intBitWidthBelowMin (min_bit_width bit_width : ℤ)
  deriving DecidableEq

/-- The state of a constructed `BitWidthParameter` module: the trainable
offset, the fixed base, the restriction policy and the override flag. -/
structure BitWidthParameter where
  bit_width_offset : ℚ
  bit_width_base : ℚ
  restrict_bit_width_impl : RestrictPolicy
  override_pretrained : Bool

/-- Source `BitWidthParameter.__init__`: validation in source order, then
`bit_width_base = restrict_init_float(min_bit_width)`,
restricted initial value `restrict_init_float(bit_width)`, and the
trainable offset initialized to their difference. The Python
`float(int(...))` casts are the `ℤ → ℚ` coercions. -/
def BitWidthParameter.init (bit_width min_bit_width : ℤ)
    (restrict_bit_width_impl : RestrictPolicy)
    (override_pretrained_bit_width : Bool) :
    Except ConfigurationError BitWidthParameter :=
  if bit_width < MIN_INT_BIT_WIDTH then
    .error (.intBitWidthBelowFloor bit_width)
  else if min_bit_width < MIN_INT_BIT_WIDTH then
    .error (.minIntBitWidthBelowFloor min_bit_width)
  else if bit_width < min_bit_width then
    .error (.intBitWidthBelowMin min_bit_width bit_width)
  else
    let bit_width_base := restrict_bit_width_impl.restrict_init_float (min_bit_width : ℚ)
    let restricted_bit_width := restrict_bit_width_impl.restrict_init_float (bit_width : ℚ)
    .ok { bit_width_offset := restricted_bit_width - bit_width_base
          bit_width_base := bit_width_base
          restrict_bit_width_impl := restrict_bit_width_impl
          override_pretrained := override_pretrained_bit_width }

/-- Source `BitWidthParameter.forward`: `abs_binary_sign_grad(offset) + base`,
passed through the restriction policy. -/
def BitWidthParameter.forward (m : BitWidthParameter) : ℚ :=
  m.restrict_bit_width_impl.apply (abs_binary_sign_grad m.bit_width_offset + m.bit_width_base)

/-- State-passing rendering of `BitWidthParameter.forward`: the method reads
the module's fields and performs no assignment, so the returned module state
is the input state. -/
def BitWidthParameter.forwardStep (m : BitWidthParameter) : ℚ × BitWidthParameter :=
  (m.forward, m)

/-- The construction-time errors of `RemoveBitwidthParameter.__init__`:
the explicit `raise RuntimeError` for a negative target (called
`ConfigurationError` by the spec), and the `ZeroDivisionError` Python raises
at the unguarded division `1 / remove_zero_bit_width`. -/
inductive RemoveInitError where
  | configurationError (bit_width_to_remove : ℤ)
  | zeroDivisionError
  deriving DecidableEq

/-- The state of a constructed `RemoveBitwidthParameter` module. -/
structure RemoveBitwidthParameter where
  bit_width_coeff : ℚ
  non_zero_epsilon : ℚ
  override_pretrained : Bool

/-- Source `RemoveBitwidthParameter.__init__`: reject a negative target; at target
zero the coefficient is `1 / remove_zero_bit_width` (a Python scalar division,
which raises `ZeroDivisionError` when `remove_zero_bit_width = 0`); otherwise
it is `1 / bit_width_to_remove`. -/
def RemoveBitwidthParameter.init (bit_width_to_remove : ℤ)
    (override_pretrained_bit_width : Bool)
    (non_zero_epsilon : ℚ) (remove_zero_bit_width : ℚ) :
    Except RemoveInitError RemoveBitwidthParameter :=
  if bit_width_to_remove < 0 then
    .error (.configurationError bit_width_to_remove)
  else if bit_width_to_remove = 0 then
    if remove_zero_bit_width = 0 then
      .error .zeroDivisionError
    else
      .ok { bit_width_coeff := 1 / remove_zero_bit_width
            non_zero_epsilon := non_zero_epsilon
            override_pretrained := override_pretrained_bit_width }
  else
    .ok { bit_width_coeff := 1 / (bit_width_to_remove : ℚ)
          non_zero_epsilon := non_zero_epsilon
          override_pretrained := override_pretrained_bit_width }

/-- Source `RemoveBitwidthParameter.forward`:
`1.0 / (non_zero_epsilon + abs(bit_width_coeff))` (a tensor division, total
under torch semantics). -/
def RemoveBitwidthParameter.forward (m : RemoveBitwidthParameter) : ℚ :=
  1 / (m.non_zero_epsilon + |m.bit_width_coeff|)

/-- State-passing rendering of `RemoveBitwidthParameter.forward`: the method
reads the module's fields and performs no assignment, so the returned module
state is the input state. -/
def RemoveBitwidthParameter.forwardStep (m : RemoveBitwidthParameter) :
    ℚ × RemoveBitwidthParameter :=
  (m.forward, m)

/-- Modelled from the spec: the generic state-loading procedure of the
external persistence machinery (`torch.nn.Module._load_from_state_dict`, not
part of this repository) restricted to one parameter key. When the key is
present in the mapping the saved value replaces the parameter; when it is
absent and strict loading is requested, the key is reported in the
missing-keys list. -/
def genericLoadFromStateDict (key : String) (param : ℚ)
    (state_dict : List (String × ℚ)) (strict : Bool)
    (missing_keys : List String) : ℚ × List String :=
  match List.lookup key state_dict with
  | some v => (v, missing_keys)
  | none => (param, if strict then missing_keys ++ [key] else missing_keys)

/-- The outcome of a `_load_from_state_dict` hook: the parameter value after
loading, and the (mutated in Python, returned here) state-dict and
missing-keys list. -/
structure LoadOutcome where
  param : ℚ
  state_dict : List (String × ℚ)
  missing_keys : List String

/-- Source `BitWidthParameter._load_from_state_dict`: when `override_pretrained` and
the offset key is in the state-dict, delete it; delegate to the generic
loading procedure; then, when the process-wide ignore-missing-keys flag is set
and the key is in the missing-keys list, remove it from the list. -/
def BitWidthParameter.loadFromStateDict (m : BitWidthParameter) (pfx : String)
    (state_dict : List (String × ℚ)) (strict : Bool)
    (missing_keys : List String) (ignore_missing_keys : Bool) : LoadOutcome :=
  let bit_width_offset_key := pfx ++ "bit_width_offset"
  let state_dict1 :=
    if m.override_pretrained && (List.lookup bit_width_offset_key state_dict).isSome then
      state_dict.filter (fun p => !(p.1 == bit_width_offset_key))
    else state_dict
  let loaded := genericLoadFromStateDict bit_width_offset_key m.bit_width_offset
    state_dict1 strict missing_keys
  let missing_keys1 :=
    if ignore_missing_keys && loaded.2.contains bit_width_offset_key then
      loaded.2.erase bit_width_offset_key
    else loaded.2
  ⟨loaded.1, state_dict1, missing_keys1⟩

/-- Source `RemoveBitwidthParameter._load_from_state_dict`: same pattern as the
`BitWidthParameter` hook, keyed on `bit_width_coeff`. -/
def RemoveBitwidthParameter.loadFromStateDict (m : RemoveBitwidthParameter)
    (pfx : String) (state_dict : List (String × ℚ)) (strict : Bool)
    (missing_keys : List String) (ignore_missing_keys : Bool) : LoadOutcome :=
  let bit_width_coeff_key := pfx ++ "bit_width_coeff"
  let state_dict1 :=
    if m.override_pretrained && (List.lookup bit_width_coeff_key state_dict).isSome then
      state_dict.filter (fun p => !(p.1 == bit_width_coeff_key))
    else state_dict
  let loaded := genericLoadFromStateDict bit_width_coeff_key m.bit_width_coeff
    state_dict1 strict missing_keys
  let missing_keys1 :=
    if ignore_missing_keys && loaded.2.contains bit_width_coeff_key then
      loaded.2.erase bit_width_coeff_key
    else loaded.2
  ⟨loaded.1, state_dict1, missing_keys1⟩

/-- C5: for every coefficient value and every positive `non_zero_epsilon`,
`RemoveBitwidthParameter.forward()` returns exactly
`1 / (non_zero_epsilon + |bit_width_coeff|)`; this value is strictly
positive, bounded above by `1 / non_zero_epsilon`, anti-monotone in the
coefficient's absolute value, and the bound is attained at coefficient 0. -/
theorem removeBitwidth_forward_value (m m' : RemoveBitwidthParameter)
    (hε : 0 < m.non_zero_epsilon)
    (heq : m'.non_zero_epsilon = m.non_zero_epsilon) :
    m.forward = 1 / (m.non_zero_epsilon + |m.bit_width_coeff|)
    ∧ 0 < m.forward
    ∧ m.forward ≤ 1 / m.non_zero_epsilon
    ∧ (|m.bit_width_coeff| ≤ |m'.bit_width_coeff| → m'.forward ≤ m.forward)
    ∧ (m.bit_width_coeff = 0 → m.forward = 1 / m.non_zero_epsilon) := by
  have habs : (0:ℚ) ≤ |m.bit_width_coeff| := abs_nonneg _
  have hden : 0 < m.non_zero_epsilon + |m.bit_width_coeff| := by linarith
  refine ⟨rfl, one_div_pos.mpr hden, ?_, ?_, ?_⟩
  · exact one_div_le_one_div_of_le hε (by linarith)
  · intro h
    simp only [RemoveBitwidthParameter.forward, heq]
    exact one_div_le_one_div_of_le hden (by linarith)
  · intro h
    simp [RemoveBitwidthParameter.forward, h]

/-- Witness for C5 at coefficient 2, epsilon 1 (second module: coefficient
-3, same epsilon). -/
theorem removeBitwidth_forward_value_witness :
    RemoveBitwidthParameter.forward ⟨2, 1, false⟩ = 1 / ((1:ℚ) + |(2:ℚ)|)
    ∧ 0 < RemoveBitwidthParameter.forward ⟨2, 1, false⟩
    ∧ RemoveBitwidthParameter.forward ⟨2, 1, false⟩ ≤ 1 / (1:ℚ)
    ∧ (|(2:ℚ)| ≤ |(-3:ℚ)| →
        RemoveBitwidthParameter.forward ⟨-3, 1, false⟩
          ≤ RemoveBitwidthParameter.forward ⟨2, 1, false⟩)
    ∧ ((2:ℚ) = 0 → RemoveBitwidthParameter.forward ⟨2, 1, false⟩ = 1 / (1:ℚ)) :=
  removeBitwidth_forward_value ⟨2, 1, false⟩ ⟨-3, 1, false⟩ (by norm_num) rfl

/-- C6: construction initializes the coefficient to
`1 / remove_zero_bit_width` when the target is 0 and to
`1 / bit_width_to_remove` otherwise; with the default constants, target 0
gives coefficient 10 and forward value `1000000 / 10000001 ≈ 0.0999990`,
and target 4 gives coefficient `1/4` and forward value
`1000000 / 250001 ≈ 3.999984`. -/
theorem removeBitwidth_init_coeff (bwtr : ℤ) (ov : Bool) (ε rz : ℚ)
    (hrz : rz ≠ 0) :
    (bwtr = 0 → RemoveBitwidthParameter.init bwtr ov ε rz = .ok ⟨1 / rz, ε, ov⟩)
    ∧ (0 < bwtr →
        RemoveBitwidthParameter.init bwtr ov ε rz = .ok ⟨1 / (bwtr : ℚ), ε, ov⟩)
    ∧ (∃ m, RemoveBitwidthParameter.init 0 ov NON_ZERO_EPSILON REMOVE_ZERO_BIT_WIDTH
          = .ok m
        ∧ m.bit_width_coeff = 10
        ∧ m.forward = 1000000 / 10000001
        ∧ |m.forward - 999990 / 10000000| < 1 / 1000000)
    ∧ (∃ m, RemoveBitwidthParameter.init 4 ov NON_ZERO_EPSILON REMOVE_ZERO_BIT_WIDTH
          = .ok m
        ∧ m.bit_width_coeff = 1 / 4
        ∧ m.forward = 1000000 / 250001
        ∧ |m.forward - 3999984 / 1000000| < 1 / 1000000) := by
  refine ⟨?_, ?_, ?_, ?_⟩
  · intro h
    subst h
    norm_num [RemoveBitwidthParameter.init, hrz]
  · intro h
    unfold RemoveBitwidthParameter.init
    split_ifs with h1 h2
    · exfalso; omega
    · exfalso; omega
    · rfl
  · refine ⟨⟨10, NON_ZERO_EPSILON, ov⟩, ?_, rfl, ?_, ?_⟩
    · norm_num [RemoveBitwidthParameter.init, REMOVE_ZERO_BIT_WIDTH]
    · norm_num [RemoveBitwidthParameter.forward, NON_ZERO_EPSILON]
    · rw [abs_sub_lt_iff]
      constructor <;> norm_num [RemoveBitwidthParameter.forward, NON_ZERO_EPSILON]
  · have hfwd : RemoveBitwidthParameter.forward ⟨1 / 4, NON_ZERO_EPSILON, ov⟩
        = 1000000 / 250001 := by
      show (1:ℚ) / (NON_ZERO_EPSILON + |1 / 4|) = 1000000 / 250001
      rw [abs_of_pos (by norm_num : (0:ℚ) < 1 / 4)]
      norm_num [NON_ZERO_EPSILON]
    refine ⟨⟨1 / 4, NON_ZERO_EPSILON, ov⟩, ?_, rfl, hfwd, ?_⟩
    · norm_num [RemoveBitwidthParameter.init]
    · rw [hfwd, abs_sub_lt_iff]
      constructor <;> norm_num

/-- Witness for C6: the initial coefficient at targets 0 and 3 with the
default constants. -/
theorem removeBitwidth_init_coeff_witness :
    RemoveBitwidthParameter.init 0 false NON_ZERO_EPSILON REMOVE_ZERO_BIT_WIDTH
      = .ok ⟨1 / REMOVE_ZERO_BIT_WIDTH, NON_ZERO_EPSILON, false⟩
    ∧ RemoveBitwidthParameter.init 3 false NON_ZERO_EPSILON REMOVE_ZERO_BIT_WIDTH
      = .ok ⟨1 / ((3:ℤ):ℚ), NON_ZERO_EPSILON, false⟩ :=
  ⟨(removeBitwidth_init_coeff 0 false NON_ZERO_EPSILON REMOVE_ZERO_BIT_WIDTH
      (by norm_num [REMOVE_ZERO_BIT_WIDTH])).1 rfl,
   (removeBitwidth_init_coeff 3 false NON_ZERO_EPSILON REMOVE_ZERO_BIT_WIDTH
      (by norm_num [REMOVE_ZERO_BIT_WIDTH])).2.1 (by norm_num)⟩

/-- C8: `RemoveBitwidthParameter` construction produces the configuration
error exactly when `bit_width_to_remove < 0`; with the default
`remove_zero_bit_width` every non-negative target constructs successfully;
and for any module constructed with the default `non_zero_epsilon`, the
denominator of the single division in `forward()` is strictly positive, so
`forward()` cannot raise. -/
theorem removeBitwidth_init_error_characterization (bwtr : ℤ) (ov : Bool)
    (ε rz : ℚ) :
    ((∃ b, RemoveBitwidthParameter.init bwtr ov ε rz
        = .error (.configurationError b)) ↔ bwtr < 0)
    ∧ (0 ≤ bwtr →
        ∃ m, RemoveBitwidthParameter.init bwtr ov ε REMOVE_ZERO_BIT_WIDTH = .ok m)
    ∧ (∀ m, RemoveBitwidthParameter.init bwtr ov NON_ZERO_EPSILON rz = .ok m →
        0 < m.non_zero_epsilon + |m.bit_width_coeff|
        ∧ m.forward = 1 / (m.non_zero_epsilon + |m.bit_width_coeff|)) := by
  refine ⟨?_, ?_, ?_⟩
  · unfold RemoveBitwidthParameter.init
    split_ifs with h1 h2 h3 <;> simp_all
  · intro h
    unfold RemoveBitwidthParameter.init
    split_ifs with h1 h2 h3
    · exfalso; omega
    · exfalso; norm_num [REMOVE_ZERO_BIT_WIDTH] at h3
    · exact ⟨_, rfl⟩
    · exact ⟨_, rfl⟩
  · intro m hm
    unfold RemoveBitwidthParameter.init at hm
    split_ifs at hm with h1 h2 h3
    · cases hm
      refine ⟨?_, rfl⟩
      show (0:ℚ) < NON_ZERO_EPSILON + |1 / rz|
      have habs : (0:ℚ) ≤ |1 / rz| := abs_nonneg _
      have hpos : (0:ℚ) < NON_ZERO_EPSILON := by norm_num [NON_ZERO_EPSILON]
      linarith
    · cases hm
      refine ⟨?_, rfl⟩
      show (0:ℚ) < NON_ZERO_EPSILON + |1 / (bwtr : ℚ)|
      have habs : (0:ℚ) ≤ |1 / (bwtr : ℚ)| := abs_nonneg _
      have hpos : (0:ℚ) < NON_ZERO_EPSILON := by norm_num [NON_ZERO_EPSILON]
      linarith

/-- Witness for C8: a negative target yields the configuration error, and a
positive target constructs successfully. -/
theorem removeBitwidth_init_error_characterization_witness :
    (∃ b, RemoveBitwidthParameter.init (-2) false NON_ZERO_EPSILON
        REMOVE_ZERO_BIT_WIDTH = .error (.configurationError b))
    ∧ (∃ m, RemoveBitwidthParameter.init 5 false NON_ZERO_EPSILON
        REMOVE_ZERO_BIT_WIDTH = .ok m) :=
  ⟨(removeBitwidth_init_error_characterization (-2) false NON_ZERO_EPSILON
      REMOVE_ZERO_BIT_WIDTH).1.mpr (by norm_num),
   (removeBitwidth_init_error_characterization 5 false NON_ZERO_EPSILON
      REMOVE_ZERO_BIT_WIDTH).2.1 (by norm_num)⟩

/-- C9: the forward pass of both modules is deterministic and free of state
mutation: the state-passing rendering leaves the module state unchanged, and
two consecutive calls return identical values. -/
theorem forward_deterministic_and_pure (m : BitWidthParameter)
    (r : RemoveBitwidthParameter) :
    m.forwardStep.2 = m
    ∧ m.forwardStep.1 = m.forwardStep.2.forwardStep.1
    ∧ r.forwardStep.2 = r
    ∧ r.forwardStep.1 = r.forwardStep.2.forwardStep.1 :=
  ⟨rfl, rfl, rfl, rfl⟩

/-- C10: constructing `RemoveBitwidthParameter` with target 0 and
`remove_zero_bit_width = 0` fails with the division-by-zero error of the
unguarded `1 / remove_zero_bit_width`, which is distinct from every
configuration error. -/
theorem removeBitwidth_zero_sentinel_division_by_zero :
    RemoveBitwidthParameter.init 0 false NON_ZERO_EPSILON 0
      = .error .zeroDivisionError
    ∧ ∀ b : ℤ, RemoveInitError.zeroDivisionError ≠ .configurationError b := by
  refine ⟨by norm_num [RemoveBitwidthParameter.init], ?_⟩
  intro b h
  exact RemoveInitError.noConfusion h

/-- C3: `BitWidthParameter` construction fails exactly when `bit_width < 2`,
`min_bit_width < 2` or `bit_width < min_bit_width`; the three checks are
tried in that order, so the reported error is the first applicable one; and
construction succeeds for all arguments with
`bit_width >= min_bit_width >= 2`. -/
theorem bitWidthParameter_init_validation (bit_width min_bit_width : ℤ)
    (impl : RestrictPolicy) (ov : Bool) :
    ((∃ m, BitWidthParameter.init bit_width min_bit_width impl ov = .ok m)
      ↔ 2 ≤ bit_width ∧ 2 ≤ min_bit_width ∧ min_bit_width ≤ bit_width)
    ∧ (bit_width < 2 →
        BitWidthParameter.init bit_width min_bit_width impl ov
          = .error (.intBitWidthBelowFloor bit_width))
    ∧ (2 ≤ bit_width → min_bit_width < 2 →
        BitWidthParameter.init bit_width min_bit_width impl ov
          = .error (.minIntBitWidthBelowFloor min_bit_width))
    ∧ (2 ≤ bit_width → 2 ≤ min_bit_width → bit_width < min_bit_width →
        BitWidthParameter.init bit_width min_bit_width impl ov
          = .error (.intBitWidthBelowMin min_bit_width bit_width)) := by
  unfold BitWidthParameter.init MIN_INT_BIT_WIDTH
  refine ⟨?_, ?_, ?_, ?_⟩
  · split_ifs with h1 h2 h3 <;> simp <;> omega
  · intro h
    split_ifs
    rfl
  · intro h h'
    split_ifs <;> first | rfl | (exfalso; omega)
  · intro h h' h''
    split_ifs <;> first | rfl | (exfalso; omega)

/-- Witness for C3: a successful construction and the three error cases (the
second case has both `bit_width` and `min_bit_width` below the floor and
reports the `bit_width` check, which comes first). -/
theorem bitWidthParameter_init_validation_witness :
    (∃ m, BitWidthParameter.init 8 2 ⟨fun x => x, fun x => x⟩ false = .ok m)
    ∧ BitWidthParameter.init 1 0 ⟨fun x => x, fun x => x⟩ false
        = .error (.intBitWidthBelowFloor 1)
    ∧ BitWidthParameter.init 4 1 ⟨fun x => x, fun x => x⟩ false
        = .error (.minIntBitWidthBelowFloor 1)
    ∧ BitWidthParameter.init 3 5 ⟨fun x => x, fun x => x⟩ false
        = .error (.intBitWidthBelowMin 5 3) :=
  ⟨(bitWidthParameter_init_validation 8 2 ⟨fun x => x, fun x => x⟩ false).1.mpr
      (by norm_num),
   (bitWidthParameter_init_validation 1 0 ⟨fun x => x, fun x => x⟩ false).2.1
      (by norm_num),
   (bitWidthParameter_init_validation 4 1 ⟨fun x => x, fun x => x⟩ false).2.2.1
      (by norm_num) (by norm_num),
   (bitWidthParameter_init_validation 3 5 ⟨fun x => x, fun x => x⟩ false).2.2.2
      (by norm_num) (by norm_num) (by norm_num)⟩

/-- A deliberately non-monotone restriction policy (`restrict_init_float`
negates, the callable is the identity), used to probe the round-trip
property over arbitrary policies. -/
def negatingPolicy : RestrictPolicy := ⟨fun x => -x, fun x => x⟩

/-- C1 as stated (for every restriction policy) is refuted: with the
non-monotone `negatingPolicy`, `bit_width = 3`, `min_bit_width = 2`,
construction succeeds but `forward()` returns `-1`, not the restricted
image `-3` of `bit_width`. -/
theorem bitWidthParameter_roundtrip_counterexample :
    ∃ m, BitWidthParameter.init 3 2 negatingPolicy false = .ok m
      ∧ m.forward
          ≠ negatingPolicy.apply (negatingPolicy.restrict_init_float ((3:ℤ) : ℚ)) := by
  refine ⟨⟨-1, -2, negatingPolicy, false⟩, ?_, ?_⟩
  · norm_num [BitWidthParameter.init, MIN_INT_BIT_WIDTH, negatingPolicy]
  · norm_num [BitWidthParameter.forward, abs_binary_sign_grad, negatingPolicy]

/-- C1 (amended): for every `bit_width >= min_bit_width >= 2` and every
restriction policy whose `restrict_init_float` is monotone non-decreasing
(the spec's requirement on conforming implementations), constructing and
immediately calling `forward()` returns the policy callable applied to
`restrict_init_float(bit_width)`, i.e. the restricted image of the
requested initial value. -/
theorem bitWidthParameter_roundtrip (bit_width min_bit_width : ℤ)
    (pol : RestrictPolicy) (ov : Bool)
    (hmono : Monotone pol.restrict_init_float)
    (h2 : 2 ≤ min_bit_width) (hle : min_bit_width ≤ bit_width) :
    ∃ m, BitWidthParameter.init bit_width min_bit_width pol ov = .ok m
      ∧ m.forward = pol.apply (pol.restrict_init_float (bit_width : ℚ)) := by
  have hq : ((min_bit_width : ℚ)) ≤ (bit_width : ℚ) := by exact_mod_cast hle
  have hri : pol.restrict_init_float (min_bit_width : ℚ)
      ≤ pol.restrict_init_float (bit_width : ℚ) := hmono hq
  unfold BitWidthParameter.init MIN_INT_BIT_WIDTH
  split_ifs with hc1 hc2 hc3
  · exfalso; omega
  · exfalso; omega
  · exfalso; omega
  · refine ⟨_, rfl, ?_⟩
    simp only [BitWidthParameter.forward, abs_binary_sign_grad]
    rw [abs_of_nonneg (by linarith)]
    rw [sub_add_cancel]

/-- Witness for C1 (amended) at `bit_width = 8`, `min_bit_width = 2`, with
the identity policy. -/
theorem bitWidthParameter_roundtrip_witness :
    ∃ m, BitWidthParameter.init 8 2 ⟨fun x => x, fun x => x⟩ false = .ok m
      ∧ m.forward = (RestrictPolicy.mk (fun x => x) (fun x => x)).apply
          ((RestrictPolicy.mk (fun x => x) (fun x => x)).restrict_init_float
            ((8:ℤ) : ℚ)) :=
  bitWidthParameter_roundtrip 8 2 ⟨fun x => x, fun x => x⟩ false
    monotone_id (by norm_num) (by norm_num)

/-- C2: for every module state, in particular every (adversarially mutated,
possibly negative) offset value, the `abs_binary_sign_grad` contribution to
`forward()` is non-negative, and provided the policy callable is monotone
non-decreasing, `forward()` is at least the callable's image of
`bit_width_base`. -/
theorem bitWidthParameter_forward_lower_bound (m : BitWidthParameter)
    (hmono : Monotone m.restrict_bit_width_impl.apply) :
    0 ≤ abs_binary_sign_grad m.bit_width_offset
    ∧ m.restrict_bit_width_impl.apply m.bit_width_base ≤ m.forward := by
  refine ⟨abs_nonneg _, ?_⟩
  have h : m.bit_width_base
      ≤ abs_binary_sign_grad m.bit_width_offset + m.bit_width_base := by
    have := abs_nonneg m.bit_width_offset
    unfold abs_binary_sign_grad
    linarith
  exact hmono h

/-- Witness for C2 at offset -5, base 2, identity policy. -/
theorem bitWidthParameter_forward_lower_bound_witness :
    0 ≤ abs_binary_sign_grad (-5 : ℚ)
    ∧ (RestrictPolicy.mk (fun x => x) (fun x => x)).apply (2:ℚ)
        ≤ BitWidthParameter.forward ⟨-5, 2, ⟨fun x => x, fun x => x⟩, false⟩ :=
  bitWidthParameter_forward_lower_bound ⟨-5, 2, ⟨fun x => x, fun x => x⟩, false⟩
    monotone_id

/-- Looking up a key in an association list from which every pair carrying
that key has been filtered out yields nothing. -/
theorem lookup_filter_key_eq_none (k : String) (l : List (String × ℚ)) :
    List.lookup k (l.filter (fun p => !(p.1 == k))) = none := by
  induction l with
  | nil => rfl
  | cons a l ih =>
      obtain ⟨a1, a2⟩ := a
      by_cases h : a1 = k
      · simpa [List.filter_cons, h] using ih
      · have hk : (k == a1) = false := by
          simp only [beq_eq_false_iff_ne]
          exact fun hh => h hh.symm
        simp [List.filter_cons, h, List.lookup, hk, ih]

/-- C4: for both modules, when `override_pretrained` is set and the
parameter key is present in the state mapping, the hook deletes the key
before delegating — the returned mapping no longer binds it — and the
parameter keeps its current (freshly-initialized) value rather than the
checkpoint's; when the flag is unset or the key is absent, the mapping is
returned unchanged. -/
theorem load_from_state_dict_override (m : BitWidthParameter)
    (r : RemoveBitwidthParameter) (pfx : String) (sd : List (String × ℚ))
    (strict : Bool) (mk : List String) (ign : Bool) :
    (m.override_pretrained = true →
      (List.lookup (pfx ++ "bit_width_offset") sd).isSome = true →
        List.lookup (pfx ++ "bit_width_offset")
            (m.loadFromStateDict pfx sd strict mk ign).state_dict = none
        ∧ (m.loadFromStateDict pfx sd strict mk ign).param = m.bit_width_offset)
    ∧ (m.override_pretrained = false
        ∨ List.lookup (pfx ++ "bit_width_offset") sd = none →
        (m.loadFromStateDict pfx sd strict mk ign).state_dict = sd)
    ∧ (r.override_pretrained = true →
      (List.lookup (pfx ++ "bit_width_coeff") sd).isSome = true →
        List.lookup (pfx ++ "bit_width_coeff")
            (r.loadFromStateDict pfx sd strict mk ign).state_dict = none
        ∧ (r.loadFromStateDict pfx sd strict mk ign).param = r.bit_width_coeff)
    ∧ (r.override_pretrained = false
        ∨ List.lookup (pfx ++ "bit_width_coeff") sd = none →
        (r.loadFromStateDict pfx sd strict mk ign).state_dict = sd) := by
  refine ⟨?_, ?_, ?_, ?_⟩
  · intro hov hin
    constructor
    · simp [BitWidthParameter.loadFromStateDict, hov, hin,
        lookup_filter_key_eq_none]
    · simp [BitWidthParameter.loadFromStateDict, genericLoadFromStateDict, hov,
        hin, lookup_filter_key_eq_none]
  · intro hcase
    rcases hcase with hov | hnone
    · simp [BitWidthParameter.loadFromStateDict, hov]
    · simp [BitWidthParameter.loadFromStateDict, hnone]
  · intro hov hin
    constructor
    · simp [RemoveBitwidthParameter.loadFromStateDict, hov, hin,
        lookup_filter_key_eq_none]
    · simp [RemoveBitwidthParameter.loadFromStateDict, genericLoadFromStateDict,
        hov, hin, lookup_filter_key_eq_none]
  · intro hcase
    rcases hcase with hov | hnone
    · simp [RemoveBitwidthParameter.loadFromStateDict, hov]
    · simp [RemoveBitwidthParameter.loadFromStateDict, hnone]

/-- Witness for C4: with override set and the key present, the key is gone
from the returned mapping and the parameter keeps value 7; with override
unset, the mapping comes back unchanged. -/
theorem load_from_state_dict_override_witness :
    (List.lookup ("p." ++ "bit_width_offset")
        (BitWidthParameter.loadFromStateDict ⟨7, 2, ⟨fun x => x, fun x => x⟩, true⟩
          "p." [("p.bit_width_offset", 9)] true [] false).state_dict = none
      ∧ (BitWidthParameter.loadFromStateDict ⟨7, 2, ⟨fun x => x, fun x => x⟩, true⟩
          "p." [("p.bit_width_offset", 9)] true [] false).param
          = (7 : ℚ))
    ∧ (RemoveBitwidthParameter.loadFromStateDict ⟨4, 1, false⟩
          "p." [("p.bit_width_offset", 9)] true [] false).state_dict
        = [("p.bit_width_offset", 9)] :=
  ⟨(load_from_state_dict_override ⟨7, 2, ⟨fun x => x, fun x => x⟩, true⟩
      ⟨4, 1, false⟩ "p." [("p.bit_width_offset", 9)] true [] false).1
      rfl (by decide),
   (load_from_state_dict_override ⟨7, 2, ⟨fun x => x, fun x => x⟩, true⟩
      ⟨4, 1, false⟩ "p." [("p.bit_width_offset", 9)] true [] false).2.2.2
      (Or.inl rfl)⟩

/-- C7: for both modules, after delegation to the generic loading
procedure: with the ignore-missing-keys flag unset the hook returns the
missing-keys list exactly as the delegation produced it; with the flag set,
if the key is in the delegated list it is removed from it, and otherwise
the delegated list is returned as is. -/
theorem load_from_state_dict_missing_keys (m : BitWidthParameter)
    (r : RemoveBitwidthParameter) (pfx : String) (sd : List (String × ℚ))
    (strict : Bool) (mk : List String) :
    ((m.loadFromStateDict pfx sd strict mk false).missing_keys
        = (genericLoadFromStateDict (pfx ++ "bit_width_offset")
            m.bit_width_offset
            (m.loadFromStateDict pfx sd strict mk false).state_dict
            strict mk).2)
    ∧ (pfx ++ "bit_width_offset"
          ∈ (genericLoadFromStateDict (pfx ++ "bit_width_offset")
              m.bit_width_offset
              (m.loadFromStateDict pfx sd strict mk true).state_dict
              strict mk).2 →
        (m.loadFromStateDict pfx sd strict mk true).missing_keys
          = (genericLoadFromStateDict (pfx ++ "bit_width_offset")
              m.bit_width_offset
              (m.loadFromStateDict pfx sd strict mk true).state_dict
              strict mk).2.erase (pfx ++ "bit_width_offset"))
    ∧ (pfx ++ "bit_width_offset"
          ∉ (genericLoadFromStateDict (pfx ++ "bit_width_offset")
              m.bit_width_offset
              (m.loadFromStateDict pfx sd strict mk true).state_dict
              strict mk).2 →
        (m.loadFromStateDict pfx sd strict mk true).missing_keys
          = (genericLoadFromStateDict (pfx ++ "bit_width_offset")
              m.bit_width_offset
              (m.loadFromStateDict pfx sd strict mk true).state_dict
              strict mk).2)
    ∧ ((r.loadFromStateDict pfx sd strict mk false).missing_keys
        = (genericLoadFromStateDict (pfx ++ "bit_width_coeff")
            r.bit_width_coeff
            (r.loadFromStateDict pfx sd strict mk false).state_dict
            strict mk).2)
    ∧ (pfx ++ "bit_width_coeff"
          ∈ (genericLoadFromStateDict (pfx ++ "bit_width_coeff")
              r.bit_width_coeff
              (r.loadFromStateDict pfx sd strict mk true).state_dict
              strict mk).2 →
        (r.loadFromStateDict pfx sd strict mk true).missing_keys
          = (genericLoadFromStateDict (pfx ++ "bit_width_coeff")
              r.bit_width_coeff
              (r.loadFromStateDict pfx sd strict mk true).state_dict
              strict mk).2.erase (pfx ++ "bit_width_coeff"))
    ∧ (pfx ++ "bit_width_coeff"
          ∉ (genericLoadFromStateDict (pfx ++ "bit_width_coeff")
              r.bit_width_coeff
              (r.loadFromStateDict pfx sd strict mk true).state_dict
              strict mk).2 →
        (r.loadFromStateDict pfx sd strict mk true).missing_keys
          = (genericLoadFromStateDict (pfx ++ "bit_width_coeff")
              r.bit_width_coeff
              (r.loadFromStateDict pfx sd strict mk true).state_dict
              strict mk).2) := by
  refine ⟨?_, ?_, ?_, ?_, ?_, ?_⟩
  · simp [BitWidthParameter.loadFromStateDict]
  · intro h
    simp only [BitWidthParameter.loadFromStateDict] at h ⊢
    simp [h]
  · intro h
    simp only [BitWidthParameter.loadFromStateDict] at h ⊢
    simp [h]
  · simp [RemoveBitwidthParameter.loadFromStateDict]
  · intro h
    simp only [RemoveBitwidthParameter.loadFromStateDict] at h ⊢
    simp [h]
  · intro h
    simp only [RemoveBitwidthParameter.loadFromStateDict] at h ⊢
    simp [h]

/-- Witness for C7: with an empty state mapping and strict loading the
delegation reports the key as missing; the flag-unset call surfaces it and
the flag-set call removes it. -/
theorem load_from_state_dict_missing_keys_witness :
    ((BitWidthParameter.loadFromStateDict ⟨7, 2, ⟨fun x => x, fun x => x⟩, false⟩
        "p." [] true [] false).missing_keys
      = (genericLoadFromStateDict ("p." ++ "bit_width_offset") (7 : ℚ)
          (BitWidthParameter.loadFromStateDict ⟨7, 2, ⟨fun x => x, fun x => x⟩, false⟩
            "p." [] true [] false).state_dict true []).2)
    ∧ ((BitWidthParameter.loadFromStateDict ⟨7, 2, ⟨fun x => x, fun x => x⟩, false⟩
        "p." [] true [] true).missing_keys
      = (genericLoadFromStateDict ("p." ++ "bit_width_offset") (7 : ℚ)
          (BitWidthParameter.loadFromStateDict ⟨7, 2, ⟨fun x => x, fun x => x⟩, false⟩
            "p." [] true [] true).state_dict true []).2.erase
          ("p." ++ "bit_width_offset"))
    ∧ ((RemoveBitwidthParameter.loadFromStateDict ⟨4, 1, false⟩
        "p." [] true [] false).missing_keys
      = (genericLoadFromStateDict ("p." ++ "bit_width_coeff") (4 : ℚ)
          (RemoveBitwidthParameter.loadFromStateDict ⟨4, 1, false⟩
            "p." [] true [] false).state_dict true []).2) :=
  ⟨(load_from_state_dict_missing_keys ⟨7, 2, ⟨fun x => x, fun x => x⟩, false⟩
      ⟨4, 1, false⟩ "p." [] true []).1,
   (load_from_state_dict_missing_keys ⟨7, 2, ⟨fun x => x, fun x => x⟩, false⟩
      ⟨4, 1, false⟩ "p." [] true []).2.1 (by simp [BitWidthParameter.loadFromStateDict, genericLoadFromStateDict]),
   (load_from_state_dict_missing_keys ⟨7, 2, ⟨fun x => x, fun x => x⟩, false⟩
      ⟨4, 1, false⟩ "p." [] true []).2.2.2.1⟩

/-- Witness for C9 at concrete module states. -/
theorem forward_deterministic_and_pure_witness :
    (BitWidthParameter.forwardStep ⟨3, 2, ⟨fun x => x, fun x => x⟩, false⟩).2
        = ⟨3, 2, ⟨fun x => x, fun x => x⟩, false⟩
    ∧ (BitWidthParameter.forwardStep ⟨3, 2, ⟨fun x => x, fun x => x⟩, false⟩).1
        = ((BitWidthParameter.forwardStep
            ⟨3, 2, ⟨fun x => x, fun x => x⟩, false⟩).2).forwardStep.1
    ∧ (RemoveBitwidthParameter.forwardStep ⟨4, 1, false⟩).2 = ⟨4, 1, false⟩
    ∧ (RemoveBitwidthParameter.forwardStep ⟨4, 1, false⟩).1
        = ((RemoveBitwidthParameter.forwardStep ⟨4, 1, false⟩).2).forwardStep.1 :=
  forward_deterministic_and_pure ⟨3, 2, ⟨fun x => x, fun x => x⟩, false⟩
    ⟨4, 1, false⟩

/-- Witness for C10: the error-distinctness conjunct instantiated at
target 0. -/
theorem removeBitwidth_zero_sentinel_division_by_zero_witness :
    RemoveBitwidthParameter.init 0 false NON_ZERO_EPSILON 0
      = .error .zeroDivisionError
    ∧ RemoveInitError.zeroDivisionError ≠ .configurationError 0 :=
  ⟨removeBitwidth_zero_sentinel_division_by_zero.1,
   removeBitwidth_zero_sentinel_division_by_zero.2 0⟩
